import Mathlib

/-!
Shallow embedding of `src/server/src/utils.rs` from the foundryvtt-docker
repository: a path resolver for the Foundry VTT entry script and a thin
subprocess wrapper, together with proofs of the specified properties.

The filesystem is modelled as an existence oracle `String → Bool`
(the result of `Path::exists` on each path), the environment as a partial
map `String → Option String` (`env::var`, with `none` covering both the
unset and the non-unicode case), and the operating system's process
launcher as a partial map from a command and its arguments to the captured
`Output` of the child (`none` meaning the child could not be spawned).
-/

namespace FoundryUtils

/-- A filesystem state, reduced to the existence facts `Path::exists`
observes: which path strings name an existing file or directory. -/
def FileSystem : Type := String → Bool

/-- True when the path string ends in the Unix path separator. -/
def endsWithSep (s : String) : Bool := s.data.getLast? == some '/'

/-- Unix behaviour of Rust's `PathBuf::push`/`join` for a relative
component: an empty base yields the component alone, a base already ending
in the separator gets no second separator, and otherwise a `/` is
inserted. -/
def pathJoin (base comp : String) : String :=
  if base = "" then comp
  else if endsWithSep base then base ++ comp
  else base ++ "/" ++ comp

/-- Candidate A of the resolver: `base.join("resources").join("app").join("main.js")`,
the layout of older Foundry VTT versions. -/
def old_path (app_dir : String) : String :=
  pathJoin (pathJoin (pathJoin app_dir "resources") "app") "main.js"

/-- Candidate B of the resolver: `base.join("main.js")`, the layout of
newer Foundry VTT versions. -/
def new_path (app_dir : String) : String :=
  pathJoin app_dir "main.js"

/-- Embedding of `paths::resolve_foundry_script_path`: try the old layout
first, return it when it exists, otherwise fall back to the new layout
unconditionally. -/
def resolve_foundry_script_path (fs : FileSystem) (app_dir : String) : String :=
  if fs (old_path app_dir) then old_path app_dir
  else new_path app_dir

/-- A filesystem operation, for tracing what the resolver does to the
filesystem: a read-only existence probe or a write creating a path. -/
inductive FsOp where
  | probe (path : String)
  | write (path : String)
deriving DecidableEq

/-- Effect of one filesystem operation on the existence oracle: a probe
changes nothing, a write makes its path exist. -/
def applyFsOp (fs : FileSystem) : FsOp → FileSystem
  | FsOp.probe _ => fs
  | FsOp.write p => fun q => if q = p then true else fs q

/-- Embedding of `resolve_foundry_script_path` instrumented with the exact
trace of filesystem operations the Rust code issues: the single
`old_path.exists()` probe. -/
def resolve_foundry_script_path_traced (fs : FileSystem) (app_dir : String) :
    String × List FsOp :=
  if fs (old_path app_dir) then (old_path app_dir, [FsOp.probe (old_path app_dir)])
  else (new_path app_dir, [FsOp.probe (old_path app_dir)])

/-- An environment, as `env::var` observes it: `none` covers both a
variable that is unset and one whose value is not unicode. -/
def Env : Type := String → Option String

/-- Embedding of `env::var(name).unwrap_or_else(|_| default)`. -/
def env_var_or (env : Env) (name default : String) : String :=
  match env name with
  | some v => v
  | none => default

/-- Embedding of the lazy static `paths::APPLICATION_DIR`. -/
def APPLICATION_DIR (env : Env) : String :=
  env_var_or env "APPLICATION_DIR" "/foundryvtt"

/-- Embedding of the lazy static `paths::DATA_DIR`. -/
def DATA_DIR (env : Env) : String :=
  env_var_or env "DATA_DIR" "/foundrydata"

/-- Captured output of a child process that was successfully launched and
has exited: `std::process::Output`. `success` is `status.success()`,
`code` is `status.code()`, and the two streams are raw byte lists. -/
structure ProcOutput where
  success : Bool
  code : Option Int
  stdout : List Nat
  stderr : List Nat
deriving DecidableEq

/-- The single error `run_command` can surface: the child could not be
spawned at all; it carries the attempted command and arguments. -/
structure LaunchFailure where
  command : String
  args : List String
deriving DecidableEq

/-- An operating system's process launcher: `none` when the command cannot
be started at all (missing binary, permission denied), `some` the captured
output of the exited child otherwise. -/
def Launcher : Type := String → List String → Option ProcOutput

/-- True when the byte is a UTF-8 continuation byte `0x80..=0xBF`. -/
def isCont (b : Nat) : Bool := 0x80 ≤ b && b ≤ 0xBF

/-- The replacement character U+FFFD used for invalid byte sequences. -/
def replacementChar : Char := Char.ofNat 0xFFFD

/-- Decoding of a byte list as UTF-8 with U+FFFD substituted for each
maximal invalid subpart, the policy of Rust's `String::from_utf8_lossy`. -/
def utf8LossyChars : List Nat → List Char
  | [] => []
  | b :: rest =>
    if b ≤ 0x7F then
      Char.ofNat b :: utf8LossyChars rest
    else if 0xC2 ≤ b && b ≤ 0xDF then
      match rest with
      | [] => [replacementChar]
      | b1 :: rest1 =>
        if isCont b1 then
          Char.ofNat ((b - 0xC0) * 0x40 + (b1 - 0x80)) :: utf8LossyChars rest1
        else
          replacementChar :: utf8LossyChars (b1 :: rest1)
    else if 0xE0 ≤ b && b ≤ 0xEF then
      let lo1 := if b = 0xE0 then 0xA0 else 0x80
      let hi1 := if b = 0xED then 0x9F else 0xBF
      match rest with
      | [] => [replacementChar]
      | b1 :: rest1 =>
        if lo1 ≤ b1 && b1 ≤ hi1 then
          match rest1 with
          | [] => [replacementChar]
          | b2 :: rest2 =>
            if isCont b2 then
              Char.ofNat ((b - 0xE0) * 0x1000 + (b1 - 0x80) * 0x40 + (b2 - 0x80)) ::
                utf8LossyChars rest2
            else
              replacementChar :: utf8LossyChars (b2 :: rest2)
        else
          replacementChar :: utf8LossyChars (b1 :: rest1)
    else if 0xF0 ≤ b && b ≤ 0xF4 then
      let lo1 := if b = 0xF0 then 0x90 else 0x80
      let hi1 := if b = 0xF4 then 0x8F else 0xBF
      match rest with
      | [] => [replacementChar]
      | b1 :: rest1 =>
        if lo1 ≤ b1 && b1 ≤ hi1 then
          match rest1 with
          | [] => [replacementChar]
          | b2 :: rest2 =>
            if isCont b2 then
              match rest2 with
              | [] => [replacementChar]
              | b3 :: rest3 =>
                if isCont b3 then
                  Char.ofNat ((b - 0xF0) * 0x40000 + (b1 - 0x80) * 0x1000 +
                      (b2 - 0x80) * 0x40 + (b3 - 0x80)) :: utf8LossyChars rest3
                else
                  replacementChar :: utf8LossyChars (b3 :: rest3)
            else
              replacementChar :: utf8LossyChars (b2 :: rest2)
        else
          replacementChar :: utf8LossyChars (b1 :: rest1)
    else
      replacementChar :: utf8LossyChars rest

/-- Embedding of `String::from_utf8_lossy(bytes).to_string()`. -/
def from_utf8_lossy (bytes : List Nat) : String :=
  String.mk (utf8LossyChars bytes)

/-- Embedding of `run_command`: spawn the child through the launcher,
propagate a `LaunchFailure` carrying the command and arguments when the
spawn fails, and otherwise return the lossily decoded stdout regardless of
the exit status (a non-zero status is only logged). -/
def run_command (os : Launcher) (command : String) (args : List String) :
    Except LaunchFailure String :=
  match os command args with
  | none => Except.error { command := command, args := args }
  | some output => Except.ok (from_utf8_lossy output.stdout)

/-- A launcher modelling a host that has the POSIX `false` utility: the
command `false` with no arguments spawns successfully, writes nothing to
either stream apart from exiting with status code 1. -/
def falseLauncher : Launcher := fun command args =>
  if command = "false" ∧ args = [] then
    some { success := false, code := some 1, stdout := [], stderr := [] }
  else none

/-- Joining a relative component onto a base yields a string extending the
base. -/
theorem pathJoin_extends (a b : String) : ∃ t, pathJoin a b = a ++ t := by
  unfold pathJoin
  split
  · next h => exact ⟨b, by rw [h, String.empty_append]⟩
  · split
    · exact ⟨b, rfl⟩
    · exact ⟨"/" ++ b, by rw [← String.append_assoc]⟩

/-- Joining a relative component onto a base yields a string ending in the
component. -/
theorem pathJoin_ends (a b : String) : ∃ u, pathJoin a b = u ++ b := by
  unfold pathJoin
  split
  · exact ⟨"", (String.empty_append b).symm⟩
  · split
    · exact ⟨a, rfl⟩
    · exact ⟨a ++ "/", rfl⟩

/-- The legacy candidate extends the application root. -/
theorem old_path_extends (a : String) : ∃ t, old_path a = a ++ t := by
  obtain ⟨t₁, h₁⟩ := pathJoin_extends a "resources"
  obtain ⟨t₂, h₂⟩ := pathJoin_extends (pathJoin a "resources") "app"
  obtain ⟨t₃, h₃⟩ := pathJoin_extends (pathJoin (pathJoin a "resources") "app") "main.js"
  refine ⟨t₁ ++ (t₂ ++ t₃), ?_⟩
  rw [old_path, h₃, h₂, h₁, String.append_assoc, String.append_assoc]

/-- The new candidate extends the application root. -/
theorem new_path_extends (a : String) : ∃ t, new_path a = a ++ t :=
  pathJoin_extends a "main.js"

/-- Both branches of the resolver produce one of the two candidates. -/
theorem resolve_cases (fs : FileSystem) (app_dir : String) :
    resolve_foundry_script_path fs app_dir = old_path app_dir ∨
    resolve_foundry_script_path fs app_dir = new_path app_dir := by
  unfold resolve_foundry_script_path
  split
  · exact Or.inl rfl
  · exact Or.inr rfl

/-- C1: for every application root and filesystem state in which the
legacy candidate `{app_dir}/resources/app/main.js` exists,
`resolve_foundry_script_path` returns that legacy candidate. -/
theorem resolve_foundry_script_path_legacy_wins (fs : FileSystem) (app_dir : String)
    (h : fs (old_path app_dir) = true) :
    resolve_foundry_script_path fs app_dir = old_path app_dir := by
  simp [resolve_foundry_script_path, h]

/-- Witness for C1: a filesystem where only the legacy candidate under
`/foundryvtt` exists makes resolution return it. -/
theorem resolve_foundry_script_path_legacy_wins_witness :
    old_path "/foundryvtt" = "/foundryvtt/resources/app/main.js" ∧
    resolve_foundry_script_path (fun p => p == "/foundryvtt/resources/app/main.js")
      "/foundryvtt" = "/foundryvtt/resources/app/main.js" :=
  ⟨rfl,
   resolve_foundry_script_path_legacy_wins
     (fun p => p == "/foundryvtt/resources/app/main.js") "/foundryvtt" rfl⟩

/-- C2: for every application root and filesystem state in which the
legacy candidate does not exist, `resolve_foundry_script_path` returns
`{app_dir}/main.js` unconditionally, whether or not that file exists. -/
theorem resolve_foundry_script_path_fallback (fs : FileSystem) (app_dir : String)
    (h : fs (old_path app_dir) = false) :
    resolve_foundry_script_path fs app_dir = new_path app_dir := by
  simp [resolve_foundry_script_path, h]

/-- Witness for C2: on a filesystem where nothing exists at all, the
resolver still returns `/foundryvtt/main.js` even though that path does
not exist either. -/
theorem resolve_foundry_script_path_fallback_witness :
    new_path "/foundryvtt" = "/foundryvtt/main.js" ∧
    resolve_foundry_script_path (fun _ => false) "/foundryvtt" = "/foundryvtt/main.js" ∧
    (fun _ => false : FileSystem) "/foundryvtt/main.js" = false :=
  ⟨rfl, resolve_foundry_script_path_fallback (fun _ => false) "/foundryvtt" rfl, rfl⟩

/-- C3: resolution is a total function that never raises an error, and for
every filesystem state and application root its result is one of exactly
the two candidates. -/
theorem resolve_foundry_script_path_two_candidates (fs : FileSystem) (app_dir : String) :
    resolve_foundry_script_path fs app_dir = old_path app_dir ∨
    resolve_foundry_script_path fs app_dir = new_path app_dir :=
  resolve_cases fs app_dir

/-- C4: `run_command` returns an error exactly when the child could not be
started at all, and that error carries the attempted command and
arguments; a launched child that exits non-zero is not an error, so
running `false` with no arguments yields `Ok ""`. -/
theorem run_command_launch_failure_iff :
    (∀ (os : Launcher) (command : String) (args : List String) (e : LaunchFailure),
      run_command os command args = Except.error e ↔
        (os command args = none ∧ e = ⟨command, args⟩)) ∧
    run_command falseLauncher "false" [] = Except.ok "" := by
  constructor
  · intro os command args e
    unfold run_command
    cases h : os command args with
    | none => simp [LaunchFailure.mk.injEq, eq_comm]
    | some out => simp
  · rfl

/-- Witness for C4: a launcher that cannot start anything makes
`run_command` fail with the attempted command and arguments. -/
theorem run_command_launch_failure_iff_witness :
    run_command (fun _ _ => none) "nope" ["x"] = Except.error ⟨"nope", ["x"]⟩ :=
  (run_command_launch_failure_iff.1 (fun _ _ => none) "nope" ["x"] ⟨"nope", ["x"]⟩).mpr
    ⟨rfl, rfl⟩

/-- C5: whenever the child launches, the Ok value of `run_command` is the
child's entire captured stdout byte stream decoded lossily (invalid UTF-8
replaced with U+FFFD), regardless of the exit status. -/
theorem run_command_returns_lossy_stdout (os : Launcher) (command : String)
    (args : List String) (out : ProcOutput) (h : os command args = some out) :
    run_command os command args = Except.ok (from_utf8_lossy out.stdout) := by
  unfold run_command
  rw [h]

/-- Witness for C5: a failing child whose stdout bytes are not valid UTF-8
still yields Ok, with the invalid byte replaced by U+FFFD. -/
theorem run_command_returns_lossy_stdout_witness :
    run_command (fun _ _ => some ⟨false, some 2, [0xFF, 0x41], [0x45]⟩) "cmd" ["a"]
      = Except.ok (from_utf8_lossy [0xFF, 0x41]) ∧
    from_utf8_lossy [0xFF, 0x41] = "�A" :=
  ⟨run_command_returns_lossy_stdout (fun _ _ => some ⟨false, some 2, [0xFF, 0x41], [0x45]⟩)
     "cmd" ["a"] ⟨false, some 2, [0xFF, 0x41], [0x45]⟩ rfl,
   rfl⟩

/-- C6: the application-root lookup returns `APPLICATION_DIR` from the
environment and defaults to `/foundryvtt` when it is unset or unreadable;
the data-root lookup does the same with `DATA_DIR` and `/foundrydata`.
Both are total functions: no error and no existence validation. -/
theorem application_and_data_dir_defaults (env : Env) :
    (env "APPLICATION_DIR" = none → APPLICATION_DIR env = "/foundryvtt") ∧
    (∀ v, env "APPLICATION_DIR" = some v → APPLICATION_DIR env = v) ∧
    (env "DATA_DIR" = none → DATA_DIR env = "/foundrydata") ∧
    (∀ v, env "DATA_DIR" = some v → DATA_DIR env = v) := by
  refine ⟨?_, ?_, ?_, ?_⟩
  · intro h; unfold APPLICATION_DIR env_var_or; rw [h]
  · intro v h; unfold APPLICATION_DIR env_var_or; rw [h]
  · intro h; unfold DATA_DIR env_var_or; rw [h]
  · intro v h; unfold DATA_DIR env_var_or; rw [h]

/-- Witness for C6: an empty environment yields both defaults, and a set
variable is returned as-is. -/
theorem application_and_data_dir_defaults_witness :
    APPLICATION_DIR (fun _ => none) = "/foundryvtt" ∧
    DATA_DIR (fun _ => none) = "/foundrydata" ∧
    APPLICATION_DIR (fun _ => some "/opt/fvtt") = "/opt/fvtt" :=
  ⟨(application_and_data_dir_defaults (fun _ => none)).1 rfl,
   (application_and_data_dir_defaults (fun _ => none)).2.2.1 rfl,
   (application_and_data_dir_defaults (fun _ => some "/opt/fvtt")).2.1 "/opt/fvtt" rfl⟩

/-- C7: resolution is deterministic in the root and the filesystem
existence facts: two filesystem states with the same existence facts give
the same resolved path. -/
theorem resolve_foundry_script_path_deterministic (fs₁ fs₂ : FileSystem)
    (app_dir : String) (h : ∀ p, fs₁ p = fs₂ p) :
    resolve_foundry_script_path fs₁ app_dir = resolve_foundry_script_path fs₂ app_dir := by
  unfold resolve_foundry_script_path
  rw [h (old_path app_dir)]

/-- Witness for C7: two syntactically different oracles with the same
existence facts resolve identically. -/
theorem resolve_foundry_script_path_deterministic_witness :
    resolve_foundry_script_path (fun _ => false) "/foundryvtt"
      = resolve_foundry_script_path (fun p => false && (p == "x")) "/foundryvtt" :=
  resolve_foundry_script_path_deterministic (fun _ => false)
    (fun p => false && (p == "x")) "/foundryvtt" (fun _ => rfl)

/-- C8: the resolver's filesystem trace is exactly one read-only existence
probe of the legacy candidate, it performs no writes, and replaying the
trace leaves the filesystem state unchanged; the traced resolver computes
the same path as the plain one. -/
theorem resolve_foundry_script_path_readonly (fs : FileSystem) (app_dir : String) :
    (resolve_foundry_script_path_traced fs app_dir).1
      = resolve_foundry_script_path fs app_dir ∧
    (resolve_foundry_script_path_traced fs app_dir).2
      = [FsOp.probe (old_path app_dir)] ∧
    List.foldl applyFsOp fs (resolve_foundry_script_path_traced fs app_dir).2 = fs := by
  unfold resolve_foundry_script_path_traced resolve_foundry_script_path
  split
  · exact ⟨rfl, rfl, rfl⟩
  · exact ⟨rfl, rfl, rfl⟩

/-- C9: the Ok value of `run_command` depends only on the child's stdout
bytes: any two launches with equal stdout yield equal results, whatever
their commands, stderr contents or exit statuses. -/
theorem run_command_ok_depends_only_on_stdout
    (os₁ os₂ : Launcher) (c₁ c₂ : String) (a₁ a₂ : List String)
    (out₁ out₂ : ProcOutput)
    (h₁ : os₁ c₁ a₁ = some out₁) (h₂ : os₂ c₂ a₂ = some out₂)
    (hstdout : out₁.stdout = out₂.stdout) :
    run_command os₁ c₁ a₁ = run_command os₂ c₂ a₂ := by
  simp only [run_command, h₁, h₂, hstdout]

/-- Witness for C9: two children with identical stdout but different exit
statuses and stderr produce the same Ok value. -/
theorem run_command_ok_depends_only_on_stdout_witness :
    run_command (fun _ _ => some ⟨true, some 0, [0x68, 0x69], []⟩) "a" []
      = run_command (fun _ _ => some ⟨false, some 3, [0x68, 0x69], [0x65]⟩) "b" ["z"] :=
  run_command_ok_depends_only_on_stdout
    (fun _ _ => some ⟨true, some 0, [0x68, 0x69], []⟩)
    (fun _ _ => some ⟨false, some 3, [0x68, 0x69], [0x65]⟩)
    "a" "b" [] ["z"] ⟨true, some 0, [0x68, 0x69], []⟩
    ⟨false, some 3, [0x68, 0x69], [0x65]⟩ rfl rfl rfl

/-- C10 counterexample: with the empty application root and a filesystem
where the relative legacy candidate `resources/app/main.js` exists, the
resolver returns `resources/app/main.js`, not `main.js` as the claim
states for every empty-root invocation. -/
theorem resolve_empty_root_counterexample :
    resolve_foundry_script_path (fun p => p == "resources/app/main.js") ""
      = "resources/app/main.js" ∧
    ("resources/app/main.js" : String) ≠ "main.js" :=
  ⟨rfl, by decide⟩

/-- C10 (amended): for every root and filesystem the resolved path extends
the root and ends in `main.js`; for the empty root the result is the
relative path `main.js` when the legacy candidate `resources/app/main.js`
does not exist, and the relative path `resources/app/main.js` when it
does. -/
theorem resolve_foundry_script_path_shape (fs : FileSystem) (app_dir : String) :
    (∃ t, resolve_foundry_script_path fs app_dir = app_dir ++ t) ∧
    (∃ u, resolve_foundry_script_path fs app_dir = u ++ "main.js") ∧
    (app_dir = "" → fs "resources/app/main.js" = false →
      resolve_foundry_script_path fs app_dir = "main.js") ∧
    (app_dir = "" → fs "resources/app/main.js" = true →
      resolve_foundry_script_path fs app_dir = "resources/app/main.js") := by
  refine ⟨?_, ?_, ?_, ?_⟩
  · rcases resolve_cases fs app_dir with h | h
    · obtain ⟨t, ht⟩ := old_path_extends app_dir
      exact ⟨t, by rw [h, ht]⟩
    · obtain ⟨t, ht⟩ := new_path_extends app_dir
      exact ⟨t, by rw [h, ht]⟩
  · rcases resolve_cases fs app_dir with h | h
    · obtain ⟨u, hu⟩ :=
        pathJoin_ends (pathJoin (pathJoin app_dir "resources") "app") "main.js"
      exact ⟨u, by rw [h, old_path, hu]⟩
    · obtain ⟨u, hu⟩ := pathJoin_ends app_dir "main.js"
      exact ⟨u, by rw [h, new_path, hu]⟩
  · intro happ h
    subst happ
    unfold resolve_foundry_script_path
    have e : old_path "" = "resources/app/main.js" := rfl
    rw [e, h]
    rfl
  · intro happ h
    subst happ
    unfold resolve_foundry_script_path
    have e : old_path "" = "resources/app/main.js" := rfl
    rw [e, h]
    rfl

/-- Witness for C10 (amended): with nothing on disk, the empty root
resolves to the relative path `main.js`. -/
theorem resolve_foundry_script_path_shape_witness :
    resolve_foundry_script_path (fun _ => false) "" = "main.js" :=
  (resolve_foundry_script_path_shape (fun _ => false) "").2.2.1 rfl rfl

end FoundryUtils
